import Mathlib

/-!
Verification of the `gomodbus` command-line client (`main.go`).

The Go program is shallowly embedded below:

* `Config` mirrors the `Config` struct; `time.Duration` fields are stored as
  `Int` nanoseconds, `int` fields as `Int`.
* `parseArgs` (built from `parseStep`/`parseLoop`) mirrors the option loop of
  `ModbusCLI.parseArgs`.  The Go loop advances an index `i` over `os.Args[1:]`;
  the embedding carries the remaining suffix of the token list instead, which
  is the same information.  The loop is driven by explicit fuel, and a fuel
  of zero yields `ParseOut.diverge`; a run that returns `diverge` for every
  fuel models non-termination of the Go loop.
* `validateConfig`, the wide-value codec of `writeHoldingRegisters` /
  `printRegisters`, the dispatchers `performOperation` /
  `performWriteOperation` and the poll loop of `execute` are embedded as pure
  functions; calls into the external modbus client library are recorded as
  `ClientCall` values (the library itself is out of scope).
* `strconv.Atoi` / `strconv.ParseFloat` are modelled by `goAtoi` /
  `goParseFloat` over decimal syntax.  `goParseFloat` keeps the exact decimal
  value as mantissa/exponent; IEEE-754 rounding of `float64`, hexadecimal
  float syntax, `inf`/`nan` tokens and 64-bit overflow of `Atoi` are not
  modelled — no claim below depends on them.  Write values are kept as their
  raw tokens; the `uint32(v.(float64))` narrowing applied when they are
  consumed is abstracted by a conversion parameter `conv : String → Nat`,
  since no claim depends on the numeric value of a write token.
-/

/-- Mirror of the Go `Config` struct (`main.go` lines 14-43).
Durations (`Timeout`, `PollRate`) are in nanoseconds, as in `time.Duration`. -/
structure Config where
  Mode : String
  Host : String
  Port : Int
  Device : String
  Baudrate : Int
  Databits : Int
  Stopbits : Int
  Parity : String
  Timeout : Int
  SlaveID : Int
  StartRef : Int
  Count : Int
  DataType : String
  ZeroBased : Bool
  BigEndian : Bool
  PollOnce : Bool
  PollRate : Int
  Verbose : Bool
  WriteValues : List String
  RTSMode : Int
  RTSPin : Int
deriving Repr, DecidableEq

/-- The defaults installed at the top of `parseArgs` (`main.go` lines 78-92). -/
def defaultConfig : Config where
  Mode := "tcp"
  Host := ""
  Port := 502
  Device := ""
  Baudrate := 19200
  Databits := 8
  Stopbits := 1
  Parity := "even"
  Timeout := 1000000000
  SlaveID := 1
  StartRef := 1
  Count := 1
  DataType := "4"
  ZeroBased := false
  BigEndian := true
  PollOnce := false
  PollRate := 1000000000
  Verbose := false
  WriteValues := []
  RTSMode := 0
  RTSPin := 0

/-- Numeric value of a list of decimal digit characters. -/
def digitsVal (l : List Char) : Nat :=
  l.foldl (fun a ch => a * 10 + (ch.toNat - 48)) 0

/-- Model of `strconv.Atoi`: optional sign followed by at least one decimal
digit.  (64-bit overflow, which Go reports as an error, is not modelled.) -/
def goAtoi (s : String) : Option Int :=
  match s.toList with
  | '+' :: ds =>
    if ds ≠ [] ∧ ds.all Char.isDigit then some ((digitsVal ds : Int)) else none
  | '-' :: ds =>
    if ds ≠ [] ∧ ds.all Char.isDigit then some (-(digitsVal ds : Int)) else none
  | ds =>
    if ds ≠ [] ∧ ds.all Char.isDigit then some ((digitsVal ds : Int)) else none

/-- Exact value of a decimal floating-point token: `mant * 10 ^ exp10`. -/
structure DecFloat where
  mant : Int
  exp10 : Int
deriving Repr, DecidableEq

/-- Split a character list at the first `e`/`E` (exponent marker). -/
def splitExpPart : List Char → List Char × Option (List Char)
  | [] => ([], none)
  | ch :: rest =>
    if ch = 'e' ∨ ch = 'E' then ([], some rest)
    else
      let p := splitExpPart rest
      (ch :: p.1, p.2)

/-- Strip an optional sign; returns (isNegative, rest). -/
def parseSign : List Char → Bool × List Char
  | '+' :: r => (false, r)
  | '-' :: r => (true, r)
  | l => (false, l)

/-- Parse `digits [. digits]` (at least one digit overall): returns the
digit string read as an integer together with the number of fraction digits. -/
def parseMant (l : List Char) : Option (Nat × Nat) :=
  let ip := l.takeWhile Char.isDigit
  let rest := l.drop ip.length
  match rest with
  | [] => if ip.isEmpty then none else some (digitsVal ip, 0)
  | '.' :: fp =>
    if fp.all Char.isDigit ∧ ¬(ip.isEmpty ∧ fp.isEmpty) then
      some (digitsVal (ip ++ fp), fp.length)
    else none
  | _ => none

/-- Model of `strconv.ParseFloat` on decimal syntax, keeping the exact value. -/
def goParseFloat (s : String) : Option DecFloat :=
  let sp := parseSign s.toList
  let me := splitExpPart sp.2
  match parseMant me.1 with
  | none => none
  | some mv =>
    let mant : Int := if sp.1 then -(mv.1 : Int) else (mv.1 : Int)
    match me.2 with
    | none => some ⟨mant, -(mv.2 : Int)⟩
    | some ecs =>
      let es := parseSign ecs
      if es.2.isEmpty ∨ ¬(es.2.all Char.isDigit) then none
      else
        let ev : Int := if es.1 then -(digitsVal es.2 : Int) else (digitsVal es.2 : Int)
        some ⟨mant, ev - (mv.2 : Int)⟩

/-- `time.Duration(t * float64(time.Second))` for a parsed decimal `t`:
nanoseconds, truncated toward zero (the float64 rounding of the product is
not modelled; no claim exercises it). -/
def nsOfSeconds (d : DecFloat) : Int :=
  let e := d.exp10 + 9
  if 0 ≤ e then d.mant * (10 : Int) ^ e.toNat
  else (d.mant).tdiv ((10 : Int) ^ (-e).toNat)

/-- `strings.HasPrefix(s, "-")`: the first character is a dash.  (Defined on
the character list so that concrete runs reduce inside the kernel.) -/
def hasDashPrefix (s : String) : Bool :=
  match s.toList with
  | '-' :: _ => true
  | _ => false

/-- `strings.Contains(s, <single character>)`. -/
def containsChar (s : String) (ch : Char) : Bool := s.toList.contains ch

/-- `strings.Split(s, ",")[0]`: the characters before the first comma (the
whole string when there is no comma). -/
def beforeComma (s : String) : String := ⟨s.toList.takeWhile (fun ch => ch ≠ ',')⟩

/-- Outcome of one iteration of the option loop (`main.go` lines 97-287):
continue with an updated config and remaining tokens, fail with an error,
or terminate the process (`-h`/`-V` call `os.Exit(0)`). -/
inductive Step where
  | cont (c : Config) (rest : List String)
  | fail (e : String)
  | exit
deriving Repr, DecidableEq

/-- The write-value collection loops (`main.go` lines 256-262 and 276-282):
each token must parse as a float; the first non-numeric token aborts with
`invalid write value: <token>`.  Tokens are kept verbatim (see header). -/
def collectWriteValues : List String → Except String (List String)
  | [] => .ok []
  | t :: ts =>
    if (goParseFloat t).isSome then
      match collectWriteValues ts with
      | .error e => .error e
      | .ok vs => .ok (t :: vs)
    else .error ("invalid write value: " ++ t)

/-- One iteration of the `parseArgs` token loop (`main.go` lines 97-287).
`arg` is the current token, `rest` the tokens after it.  Note two direct
transcriptions of the Go control flow:

* the `--` branch (lines 252-263) collects all following tokens into
  `WriteValues` and then executes `break` — which in Go leaves the
  enclosing `switch`, not the `for` loop, so the index is unchanged and the
  same `--` token is examined again: the continuation keeps `arg :: rest`;
* the bare-token write-value branch (lines 274-283) consumes every
  remaining token including the current one, so its continuation is `[]`.

Error texts produced from `strconv` errors via `%v` are abbreviated to
`invalid syntax`; no claim mentions those texts. -/
def parseStep (c : Config) (arg : String) (rest : List String) : Step :=
  match arg with
  | "-m" | "--mode" =>
    match rest with
    | [] => .fail ("missing value for " ++ arg)
    | v :: r => .cont { c with Mode := v } r
  | "-a" | "--address" =>
    match rest with
    | [] => .fail ("missing value for " ++ arg)
    | v :: r =>
      let addrStr := if containsChar v (',') ∨ containsChar v (':') then beforeComma v else v
      match goAtoi addrStr with
      | none => .fail ("invalid slave address: invalid syntax")
      | some n => .cont { c with SlaveID := n } r
  | "-r" | "--reference" =>
    match rest with
    | [] => .fail ("missing value for " ++ arg)
    | v :: r =>
      match goAtoi v with
      | none => .fail ("invalid reference: invalid syntax")
      | some n => .cont { c with StartRef := n } r
  | "-c" | "--count" =>
    match rest with
    | [] => .fail ("missing value for " ++ arg)
    | v :: r =>
      match goAtoi v with
      | none => .fail ("invalid count: invalid syntax")
      | some n => .cont { c with Count := n } r
  | "-t" | "--type" =>
    match rest with
    | [] => .fail ("missing value for " ++ arg)
    | v :: r => .cont { c with DataType := v } r
  | "-0" | "--zero-based" => .cont { c with ZeroBased := true } rest
  | "-B" | "--big-endian" => .cont { c with BigEndian := true } rest
  | "-1" | "--once" => .cont { c with PollOnce := true } rest
  | "-l" | "--poll-rate" =>
    match rest with
    | [] => .fail ("missing value for " ++ arg)
    | v :: r =>
      match goAtoi v with
      | none => .fail ("invalid poll rate: invalid syntax")
      | some n => .cont { c with PollRate := n * 1000000 } r
  | "-o" | "--timeout" =>
    match rest with
    | [] => .fail ("missing value for " ++ arg)
    | v :: r =>
      match goParseFloat v with
      | none => .fail ("invalid timeout: invalid syntax")
      | some d => .cont { c with Timeout := nsOfSeconds d } r
  | "-p" | "--port" =>
    match rest with
    | [] => .fail ("missing value for " ++ arg)
    | v :: r =>
      match goAtoi v with
      | none => .fail ("invalid port: invalid syntax")
      | some n => .cont { c with Port := n } r
  | "-b" | "--baudrate" =>
    match rest with
    | [] => .fail ("missing value for " ++ arg)
    | v :: r =>
      match goAtoi v with
      | none => .fail ("invalid baudrate: invalid syntax")
      | some n => .cont { c with Baudrate := n } r
  | "-d" | "--databits" =>
    match rest with
    | [] => .fail ("missing value for " ++ arg)
    | v :: r =>
      match goAtoi v with
      | none => .fail ("invalid databits: invalid syntax")
      | some n => .cont { c with Databits := n } r
  | "-s" | "--stopbits" =>
    match rest with
    | [] => .fail ("missing value for " ++ arg)
    | v :: r =>
      match goAtoi v with
      | none => .fail ("invalid stopbits: invalid syntax")
      | some n => .cont { c with Stopbits := n } r
  | "-P" | "--parity" =>
    match rest with
    | [] => .fail ("missing value for " ++ arg)
    | v :: r => .cont { c with Parity := v } r
  | "-v" | "--verbose" => .cont { c with Verbose := true } rest
  | "-h" | "--help" => .exit
  | "-V" | "--version" => .exit
  | _ =>
    if arg = "--" then
      match collectWriteValues rest with
      | .error e => .fail e
      | .ok vals => .cont { c with WriteValues := vals } (arg :: rest)
    else if hasDashPrefix arg then .fail ("unknown option: " ++ arg)
    else if c.Host = "" ∧ c.Device = "" then
      if c.Mode = "tcp" then .cont { c with Host := arg } rest
      else .cont { c with Device := arg } rest
    else if c.WriteValues.length = 0 then
      match collectWriteValues (arg :: rest) with
      | .error e => .fail e
      | .ok vals => .cont { c with WriteValues := c.WriteValues ++ vals } []
    else .cont c rest

/-- Result of running the option loop: a config, an error, a process exit
(`-h`/`-V`), or fuel exhaustion (the Go loop did not terminate). -/
inductive ParseOut where
  | ok (c : Config)
  | err (e : String)
  | exited
  | diverge
deriving Repr, DecidableEq

/-- The `for i < len(args)` loop of `parseArgs`, driven by fuel. -/
def parseLoop : Nat → Config → List String → ParseOut
  | 0, _, _ => .diverge
  | _ + 1, c, [] => .ok c
  | fuel + 1, c, arg :: rest =>
    match parseStep c arg rest with
    | .cont c2 rest2 => parseLoop fuel c2 rest2
    | .fail e => .err e
    | .exit => .exited

/-- `ModbusCLI.validateConfig` (`main.go` lines 301-348): a cascade of range
checks, returning the first violated constraint's message. -/
def validateConfig (c : Config) : Except String Unit :=
  if c.Count < 1 ∨ c.Count > 125 then .error ("count must be between 1 and 125")
  else if c.SlaveID < 0 ∨ c.SlaveID > 255 then .error ("slave address must be between 0 and 255")
  else if c.Baudrate < 1200 ∨ c.Baudrate > 921600 then
    .error ("baudrate must be between 1200 and 921600")
  else if c.Databits ≠ 7 ∧ c.Databits ≠ 8 then .error ("databits must be 7 or 8")
  else if c.Stopbits ≠ 1 ∧ c.Stopbits ≠ 2 then .error ("stopbits must be 1 or 2")
  else if ¬(c.Parity = "none" ∨ c.Parity = "even" ∨ c.Parity = "odd") then
    .error ("parity must be none, even, or odd")
  else if c.PollRate < 10 * 1000000 then .error ("poll rate must be at least 10ms")
  else if c.Timeout < 10 * 1000000 ∨ c.Timeout > 10 * 1000000000 then
    .error ("timeout must be between 0.01 and 10.00 seconds")
  else .ok ()

/-- `ModbusCLI.parseArgs` (`main.go` lines 77-299): run the token loop from
the defaults, then require a target and validate. -/
def parseArgs (fuel : Nat) (args : List String) : ParseOut :=
  match parseLoop fuel defaultConfig args with
  | .ok c =>
    if c.Host = "" ∧ c.Device = "" then
      .err ("device or host parameter missing ! Try -h for help")
    else
      match validateConfig c with
      | .error e => .err e
      | .ok _ => .ok c
  | r => r

/-- The wide-value packing of `writeHoldingRegisters` (`main.go` lines
586-595 and 611-620): two words already narrowed to `uint32` are combined as
`high<<16 | low` (big-endian word order) or `low<<16 | high` (little-endian),
in `uint32` arithmetic.  For the `4:float` path the same bit pattern is then
reinterpreted via `math.Float32frombits`, which is a bit-exact bijection on
patterns, so floats are modelled by their 32-bit patterns. -/
def combineWords (high low : Nat) (bigEndian : Bool) : Nat :=
  if bigEndian then (((high % 4294967296) <<< 16) % 4294967296) ||| (low % 4294967296)
  else (((low % 4294967296) <<< 16) % 4294967296) ||| (high % 4294967296)

/-- The wide-value display combination of `printRegisters` (`main.go` lines
646-669): registers `w0` (address `i`) and `w1` (address `i+1`), each a
`uint16`, are combined as `int32(w0)<<16 | int32(w1)` (big-endian) or
`int32(w1)<<16 | int32(w0)` (little-endian); the result here is the 32-bit
pattern (the `:int` display prints it as a signed `int32`, the `:float`
display feeds it to `math.Float32frombits`). -/
def combineRegisters (w0 w1 : Nat) (bigEndian : Bool) : Nat :=
  if bigEndian then (((w0 % 65536) <<< 16) ||| (w1 % 65536)) % 4294967296
  else (((w1 % 65536) <<< 16) ||| (w0 % 65536)) % 4294967296

/-- Inverse of the wide-value packing: recover the two 16-bit words (in the
order the CLI takes them: first word, second word) from a combined 32-bit
pattern under the given word order. -/
def splitWide32 (x : Nat) (bigEndian : Bool) : Nat × Nat :=
  if bigEndian then (x / 65536 % 65536, x % 65536)
  else (x % 65536, x / 65536 % 65536)

/-- Signed reading of a 32-bit pattern (the `%d` display of an `int32`). -/
def toSigned32 (x : Nat) : Int :=
  if x % 4294967296 < 2147483648 then ((x % 4294967296 : Nat) : Int)
  else ((x % 4294967296 : Nat) : Int) - 4294967296

/-- The pair loop of the `4:int`/`4:float` write paths (`main.go` lines
587-595, 611-621): consume write values two at a time, narrow each through
`conv` (the abstracted `uint32(v.(float64))`) and combine under the word
order.  A trailing odd element is never reached because the caller has
already rejected odd lengths. -/
def pairCombine (conv : String → Nat) : List String → Bool → List Nat
  | [], _ => []
  | [_], _ => []
  | hi :: lo :: rest, b => combineWords (conv hi) (conv lo) b :: pairCombine conv rest b

/-- `uint16(x)` applied to a Go `int`: two's-complement truncation, i.e.
reduction modulo `2^16` (`Int.emod` is non-negative). -/
def u16 (x : Int) : Nat := (x % 65536).toNat

/-- Address spaces of `client.ReadRegisters` (`modbus.INPUT_REGISTER` /
`modbus.HOLDING_REGISTER`). -/
inductive RegKind where
  | input
  | holding
deriving Repr, DecidableEq

/-- A call issued to the external modbus client library.  Register values
are the 16-bit words handed to `WriteRegisters`, `writeUint32s` carries the
combined 32-bit integers, `writeFloat32s` the combined 32-bit float
patterns.  For coils only the count is recorded (the claims below never
inspect coil values). -/
inductive ClientCall where
  | readCoils (addr cnt : Nat)
  | readDiscreteInputs (addr cnt : Nat)
  | readRegisters (addr cnt : Nat) (kind : RegKind)
  | writeCoils (addr : Nat) (n : Nat)
  | writeRegisters (addr : Nat) (vals : List Nat)
  | writeUint32s (addr : Nat) (vals : List Nat)
  | writeFloat32s (addr : Nat) (bits : List Nat)
deriving Repr, DecidableEq

/-- Start address carried by a client call. -/
def addrOf : ClientCall → Nat
  | .readCoils a _ => a
  | .readDiscreteInputs a _ => a
  | .readRegisters a _ _ => a
  | .writeCoils a _ => a
  | .writeRegisters a _ => a
  | .writeUint32s a _ => a
  | .writeFloat32s a _ => a

/-- The `startRef` computation at the top of `execute` (`main.go` lines
430-433): the `ZeroBased` flag replaces the configured start reference by 0. -/
def effectiveStartRef (c : Config) : Int :=
  if c.ZeroBased then 0 else c.StartRef

/-- The read dispatch of `performOperation` (`main.go` lines 460-473),
reduced to the client call each branch issues: every read handler calls the
client with `uint16(startRef)` and `uint16(config.Count)`. -/
def performOperationCall (c : Config) (start16 : Nat) : Except String ClientCall :=
  if c.DataType = "0" then .ok (.readCoils start16 (u16 c.Count))
  else if c.DataType = "1" then .ok (.readDiscreteInputs start16 (u16 c.Count))
  else if c.DataType = "3" ∨ c.DataType = "3:hex" ∨ c.DataType = "3:int" ∨ c.DataType = "3:float" then
    .ok (.readRegisters start16 (u16 c.Count) RegKind.input)
  else if c.DataType = "4" ∨ c.DataType = "4:hex" ∨ c.DataType = "4:int" ∨ c.DataType = "4:float" then
    .ok (.readRegisters start16 (u16 c.Count) RegKind.holding)
  else .error ("unsupported data type: " ++ c.DataType)

/-- `ModbusCLI.writeCoils` (`main.go` lines 536-557): one `WriteCoils` call
with one coil per write value, then one echo line per coil.  The result on
success is the list of issued client calls together with the number of
per-value echo lines. -/
def writeCoils (c : Config) (start16 : Nat) : Except String (List ClientCall × Nat) :=
  if c.WriteValues.length = 0 then .error ("no values to write")
  else .ok ([.writeCoils start16 c.WriteValues.length], c.WriteValues.length)

/-- `ModbusCLI.writeHoldingRegisters` (`main.go` lines 559-633).  The Go
`switch config.DataType` has cases only for `"4"`, `"4:int"` and
`"4:float"`; any other data type (notably `"4:hex"`, which the dispatcher
routes here) matches no case, so the function falls through to `return nil`
without issuing any client call — modelled by `.ok ([], 0)`.  On success the
result pairs the issued calls with the number of per-value echo lines
(`len(registers)` resp. `len(values)`). -/
def writeHoldingRegisters (conv : String → Nat) (c : Config) (start16 : Nat) :
    Except String (List ClientCall × Nat) :=
  if c.WriteValues.length = 0 then .error ("no values to write")
  else if c.DataType = "4" then
    let registers := c.WriteValues.map (fun s => conv s % 65536)
    .ok ([.writeRegisters start16 registers], registers.length)
  else if c.DataType = "4:int" then
    if c.WriteValues.length % 2 ≠ 0 then .error ("32-bit integers require even number of values")
    else
      let values := pairCombine conv c.WriteValues c.BigEndian
      .ok ([.writeUint32s start16 values], values.length)
  else if c.DataType = "4:float" then
    if c.WriteValues.length % 2 ≠ 0 then .error ("32-bit floats require even number of values")
    else
      let values := pairCombine conv c.WriteValues c.BigEndian
      .ok ([.writeFloat32s start16 values], values.length)
  else .ok ([], 0)

/-- `ModbusCLI.performWriteOperation` (`main.go` lines 475-488). -/
def performWriteOperation (conv : String → Nat) (c : Config) (start16 : Nat) :
    Except String (List ClientCall × Nat) :=
  if c.WriteValues.length = 0 then .error ("no write values provided")
  else if c.DataType = "0" then writeCoils c start16
  else if c.DataType = "4" ∨ c.DataType = "4:hex" ∨ c.DataType = "4:int" ∨ c.DataType = "4:float" then
    writeHoldingRegisters conv c start16
  else .error ("write operations not supported for data type: " ++ c.DataType)

/-- Observable events of a polling run: the k-th read operation, and the
`time.Sleep(config.PollRate)` between iterations. -/
inductive RunEvent where
  | read (k : Nat)
  | sleep (d : Int)
deriving Repr, DecidableEq

/-- The read loop of `execute` (`main.go` lines 445-455), driven by fuel.
`res k` is the outcome of the k-th `performOperation` call (the external
client's behaviour).  A failing read returns immediately with its error; a
successful read either ends the loop (`PollOnce`) or sleeps and repeats.
`none` means the fuel ran out with the loop still running. -/
def pollReads (res : Nat → Except String Unit) (pollOnce : Bool) (pollRate : Int) :
    Nat → Nat → Option (List RunEvent × Except String Unit)
  | 0, _ => none
  | fuel + 1, k =>
    match res k with
    | .error e => some ([.read k], .error e)
    | .ok _ =>
      if pollOnce then some ([.read k], .ok ())
      else
        match pollReads res pollOnce pollRate fuel (k + 1) with
        | none => none
        | some p => some (.read k :: .sleep pollRate :: p.1, p.2)

/-- The event trace of reads `k, k+1, ..., k+m` with sleeps of `r` between
them (the failing read `k+m` is last and is not followed by a sleep). -/
def pollTrace (k : Nat) : Nat → Int → List RunEvent
  | 0, _ => [.read k]
  | m + 1, r => .read k :: .sleep r :: pollTrace (k + 1) m r

/-- Result of a whole `execute` run: a write run's outcome, or a read run's
event trace and terminal status. -/
inductive ExecResult where
  | wrote (r : Except String (List ClientCall × Nat))
  | polled (t : List RunEvent) (r : Except String Unit)
deriving Repr

/-- `ModbusCLI.execute` (`main.go` lines 429-458): compute the start
reference, dispatch a single write operation when write values are present,
otherwise run the read loop. -/
def execute (conv : String → Nat) (c : Config) (res : Nat → Except String Unit)
    (fuel : Nat) : Option ExecResult :=
  if c.WriteValues.length ≠ 0 then
    some (.wrote (performWriteOperation conv c (u16 (effectiveStartRef c))))
  else
    match pollReads res c.PollOnce c.PollRate fuel 0 with
    | none => none
    | some p => some (.polled p.1 p.2)

/-- Shifted disjunction is addition when the low part fits below the shift. -/
theorem shiftLeft_lor_eq_add : ∀ (n a b : Nat), b < 2 ^ n → (a <<< n) ||| b = a * 2 ^ n + b := by
  intro n
  induction n with
  | zero =>
    intro a b hb
    have hb0 : b = 0 := by omega
    subst hb0
    simp [Nat.shiftLeft_eq]
  | succ n ih =>
    intro a b hb
    have ha : a <<< (n + 1) = Nat.bit false (a <<< n) := by
      simp only [Nat.bit, Nat.shiftLeft_eq, Nat.pow_succ, cond]
      ring
    have h2 : 2 ^ (n + 1) = 2 ^ n * 2 := Nat.pow_succ 2 n
    have hd2 : Nat.div2 b < 2 ^ n := by
      rw [Nat.div2_val]
      omega
    calc a <<< (n + 1) ||| b
        = Nat.bit false (a <<< n) ||| Nat.bit (Nat.bodd b) (Nat.div2 b) := by
          rw [ha, Nat.bit_decomp]
      _ = Nat.bit (false || Nat.bodd b) ((a <<< n) ||| Nat.div2 b) :=
          Nat.lor_bit false (a <<< n) (Nat.bodd b) (Nat.div2 b)
      _ = Nat.bit (Nat.bodd b) (a * 2 ^ n + Nat.div2 b) := by
          rw [Bool.false_or, ih a (Nat.div2 b) hd2]
      _ = a * 2 ^ (n + 1) + b := by
          rw [Nat.bit_val, Nat.div2_val, h2, ← Nat.mul_assoc]
          have hmod : b % 2 = (Nat.bodd b).toNat := by
            rw [Nat.mod_two_of_bodd]
          cases hb2 : Nat.bodd b <;> rw [hb2] at hmod <;>
            simp only [Bool.toNat_false, Bool.toNat_true] at hmod ⊢ <;> omega

/-- 16-bit-shifted disjunction of 16-bit words is the usual word packing. -/
theorem lor16_eq_add (x y : Nat) (hy : y < 65536) : (x <<< 16) ||| y = x * 65536 + y := by
  have hy2 : y < 2 ^ 16 := by norm_num; omega
  have h := shiftLeft_lor_eq_add 16 x y hy2
  norm_num at h
  exact h

/-- On in-range word pairs the write-side packing is plain word arithmetic. -/
theorem combineWords_eq (hi lo : Nat) (hhi : hi < 65536) (hlo : lo < 65536) (b : Bool) :
    combineWords hi lo b = if b then hi * 65536 + lo else lo * 65536 + hi := by
  have m1 : hi % 4294967296 = hi := Nat.mod_eq_of_lt (by omega)
  have m2 : lo % 4294967296 = lo := Nat.mod_eq_of_lt (by omega)
  have hb1 : (hi <<< 16) % 4294967296 = hi <<< 16 := by
    rw [Nat.shiftLeft_eq]
    exact Nat.mod_eq_of_lt (by norm_num; omega)
  have hb2 : (lo <<< 16) % 4294967296 = lo <<< 16 := by
    rw [Nat.shiftLeft_eq]
    exact Nat.mod_eq_of_lt (by norm_num; omega)
  cases b
  · simp only [combineWords, Bool.false_eq_true, if_false, m1, m2, hb2,
      lor16_eq_add lo hi hhi]
  · simp only [combineWords, if_true, m1, m2, hb1, lor16_eq_add hi lo hlo]

/-- On in-range word pairs the read-side display combination is the same
word packing as the write side. -/
theorem combineRegisters_eq (hi lo : Nat) (hhi : hi < 65536) (hlo : lo < 65536) (b : Bool) :
    combineRegisters hi lo b = if b then hi * 65536 + lo else lo * 65536 + hi := by
  have m1 : hi % 65536 = hi := Nat.mod_eq_of_lt hhi
  have m2 : lo % 65536 = lo := Nat.mod_eq_of_lt hlo
  cases b
  · simp only [combineRegisters, Bool.false_eq_true, if_false, m1, m2,
      lor16_eq_add lo hi hhi]
    exact Nat.mod_eq_of_lt (by omega)
  · simp only [combineRegisters, if_true, m1, m2, lor16_eq_add hi lo hlo]
    exact Nat.mod_eq_of_lt (by omega)

/-- The pair loop produces one combined value per pair of write values. -/
theorem pairCombine_length (conv : String → Nat) (b : Bool) :
    ∀ l : List String, (pairCombine conv l b).length = l.length / 2
  | [] => rfl
  | [_] => by simp [pairCombine]
  | _ :: _ :: t => by
    simp only [pairCombine, List.length_cons, pairCombine_length conv b t]
    omega

/-- C2: for every pair of 16-bit words and each word order, the 32-bit
pattern produced by the write-side packing splits back into exactly the
original pair under the same order; moreover the read-side display
combination of the same word pair reproduces the identical 32-bit pattern
(so the combined value shown on read equals the combined value written),
and the pattern is a genuine 32-bit value.  Floats are covered at the level
of their IEEE-754 bit patterns, which is how the code builds them
(`math.Float32frombits` applied to the same `bits`). -/
theorem wideCodecRoundTrip (hi lo : Nat) (hhi : hi < 65536) (hlo : lo < 65536) (b : Bool) :
    splitWide32 (combineWords hi lo b) b = (hi, lo) ∧
    combineRegisters hi lo b = combineWords hi lo b ∧
    combineWords hi lo b < 4294967296 := by
  have hw := combineWords_eq hi lo hhi hlo b
  have hr := combineRegisters_eq hi lo hhi hlo b
  cases b
  · simp only [Bool.false_eq_true, if_false] at hw hr
    rw [hw, hr]
    refine ⟨?_, rfl, by omega⟩
    simp only [splitWide32, Bool.false_eq_true, if_false, Prod.mk.injEq]
    constructor <;> omega
  · simp only [if_true] at hw hr
    rw [hw, hr]
    refine ⟨?_, rfl, by omega⟩
    simp only [splitWide32, if_true, Prod.mk.injEq]
    constructor <;> omega

/-- Witness for C2 at the word pair (0x4048, 0xF5C3) (≈ 3.14 as a float),
under both word orders. -/
theorem wideCodecRoundTrip_witness :
    splitWide32 (combineWords 16456 62915 true) true = (16456, 62915) ∧
    splitWide32 (combineWords 16456 62915 false) false = (16456, 62915) :=
  ⟨(wideCodecRoundTrip 16456 62915 (by decide) (by decide) true).1,
   (wideCodecRoundTrip 16456 62915 (by decide) (by decide) false).1⟩

/-- The config produced by `-m tls 192.168.1.100`. -/
def tlsParsedConfig : Config :=
  { defaultConfig with Mode := "tls", Device := "192.168.1.100" }

/-- C1 (refuting evaluation): parsing `-m tls 192.168.1.100` binds the
positional target to `Device` (leaving `Host` empty), because the parser's
positional branch tests `Mode == "tcp"` only (`main.go` line 269); the
claim — and the program's own help text and examples — expect `Host` for
the network modes tls/udp/rtuovertcp/rtuoverudp. -/
theorem tlsTargetBindsDevice :
    parseArgs 8 ["-m", "tls", "192.168.1.100"] = .ok tlsParsedConfig := by
  decide

/-- A configuration that writes a single value with data type `4:hex`. -/
def config4hexWrite : Config :=
  { defaultConfig with Host := "192.168.1.100", DataType := "4:hex", WriteValues := ["1"] }

/-- C5 (refuting evaluation): the write dispatcher routes `4:hex` to
`writeHoldingRegisters`, whose `switch` has no `4:hex` case, so the run
reports success having issued no client call at all — a silent no-op,
contradicting the claim that a successful write run always issued the
write. -/
theorem write4hexSilentNoOp :
    performWriteOperation (fun _ => 0) config4hexWrite 1 = .ok ([], 0) := rfl

/-- C6 (refuting evaluation): with `ZeroBased` set, `execute` replaces the
start reference by 0 (`main.go` line 432) instead of interpreting the
configured `StartRef` as 0-based: configurations with StartRef 5 and 7 both
address register 0, and the dispatched read call goes to address 0. -/
theorem zeroBasedDiscardsStartRef :
    effectiveStartRef { defaultConfig with ZeroBased := true, StartRef := 5 } = 0 ∧
    effectiveStartRef { defaultConfig with ZeroBased := true, StartRef := 7 } = 0 ∧
    performOperationCall { defaultConfig with ZeroBased := true, StartRef := 5 }
      (u16 (effectiveStartRef { defaultConfig with ZeroBased := true, StartRef := 5 })) =
      .ok (.readRegisters 0 1 RegKind.holding) :=
  ⟨rfl, rfl, rfl⟩

/-- C4 counterexample: a configuration selecting the wide read type `4:int`
with the odd count 1 passes validation — `validateConfig` contains no
count-parity check at all, so the claim's "rejected by validation" part is
false at this concrete input. -/
theorem wideOddCountAccepted :
    validateConfig { defaultConfig with DataType := "4:int", Count := 1 } = .ok () := rfl

/-- C4 (amended): for the wide data types `4:int`/`4:float`, a write with an
odd number of values fails with the even-count-required error, and an even
number `n` of values succeeds, issuing one wide write and producing `n/2`
combined-value echo lines; but validation never rejects an odd `Count` for
a wide read type — `validateConfig` does not inspect `DataType` at all. -/
theorem wideWriteEvenRule (conv : String → Nat) (c : Config) (s : Nat)
    (hne : c.WriteValues.length ≠ 0) :
    (c.DataType = "4:int" → c.WriteValues.length % 2 ≠ 0 →
      writeHoldingRegisters conv c s =
        .error ("32-bit integers require even number of values")) ∧
    (c.DataType = "4:float" → c.WriteValues.length % 2 ≠ 0 →
      writeHoldingRegisters conv c s =
        .error ("32-bit floats require even number of values")) ∧
    (c.DataType = "4:int" → c.WriteValues.length % 2 = 0 →
      writeHoldingRegisters conv c s =
        .ok ([.writeUint32s s (pairCombine conv c.WriteValues c.BigEndian)],
          c.WriteValues.length / 2)) ∧
    (c.DataType = "4:float" → c.WriteValues.length % 2 = 0 →
      writeHoldingRegisters conv c s =
        .ok ([.writeFloat32s s (pairCombine conv c.WriteValues c.BigEndian)],
          c.WriteValues.length / 2)) ∧
    (∀ t : String, validateConfig { c with DataType := t } = validateConfig c) := by
  refine ⟨?_, ?_, ?_, ?_, fun t => rfl⟩
  · intro hdt hodd
    unfold writeHoldingRegisters
    rw [if_neg hne, hdt, if_neg (by decide), if_pos rfl, if_pos hodd]
  · intro hdt hodd
    unfold writeHoldingRegisters
    rw [if_neg hne, hdt, if_neg (by decide), if_neg (by decide), if_pos rfl, if_pos hodd]
  · intro hdt heven
    unfold writeHoldingRegisters
    rw [if_neg hne, hdt, if_neg (by decide), if_pos rfl, if_neg (by omega)]
    simp only [pairCombine_length]
  · intro hdt heven
    unfold writeHoldingRegisters
    rw [if_neg hne, hdt, if_neg (by decide), if_neg (by decide), if_pos rfl,
      if_neg (by omega)]
    simp only [pairCombine_length]

/-- A configuration holding two `4:int` write values. -/
def configIntWrite : Config :=
  { defaultConfig with Host := "192.168.1.100", DataType := "4:int", WriteValues := ["1", "2"] }

/-- Witness for C4: two write values with `4:int` succeed with one combined
write and one (= 2/2) echo line. -/
theorem wideWriteEvenRule_witness :
    writeHoldingRegisters (fun _ => 0) configIntWrite 1 =
      .ok ([.writeUint32s 1 [0]], 1) :=
  (wideWriteEvenRule (fun _ => 0) configIntWrite 1 (by decide)).2.2.1 rfl (by decide)

/-- The parser state reached after consuming the target of
`["192.168.1.100", "--", "1"]` and collecting the value behind `--`. -/
def stuckConfig : Config :=
  { defaultConfig with Host := "192.168.1.100", WriteValues := ["1"] }

/-- Processing the `--` token from `stuckConfig` reproduces `stuckConfig`
and the same remaining tokens: the loop is at a fixpoint. -/
theorem parseLoop_stuck : ∀ f, parseLoop f stuckConfig ["--", "1"] = .diverge := by
  intro f
  induction f with
  | zero => rfl
  | succ n ih => exact ih

/-- C3 (refuting evaluation): on `192.168.1.100 -- 1` the parser never
terminates, for any amount of fuel.  The `--` branch collects the write
values and then executes a Go `break`, which leaves the `switch` — not the
`for` loop — without advancing the index, so the same `--` token is
re-processed forever.  (A non-numeric token after `--` does return the
invalid-write-value error, but with valid values parsing never completes,
refuting the claim's termination part.) -/
theorem separatorLoopsForever :
    ∀ fuel, parseArgs fuel ["192.168.1.100", "--", "1"] = .diverge := by
  intro fuel
  rcases fuel with _ | _ | n
  · rfl
  · rfl
  · have h := parseLoop_stuck n
    unfold parseArgs
    rw [show parseLoop (n + 2) defaultConfig ["192.168.1.100", "--", "1"] =
        parseLoop n stuckConfig ["--", "1"] from rfl, h]

set_option maxHeartbeats 4000000 in
/-- A single parser step never changes `BigEndian` to `false`: every branch
either preserves the configuration's `BigEndian` field or (for `-B`) sets
it to `true`. -/
theorem parseStep_bigEndian {c : Config} {arg : String} {rest : List String}
    {c2 : Config} {rest2 : List String}
    (h : parseStep c arg rest = .cont c2 rest2) (hbe : c.BigEndian = true) :
    c2.BigEndian = true := by
  simp only [parseStep] at h
  repeat' split at h
  all_goals cases h <;> (first | exact hbe | rfl)

/-- The whole option loop preserves `BigEndian = true`. -/
theorem parseLoop_bigEndian : ∀ (fuel : Nat) (c : Config) (args : List String) (c2 : Config),
    c.BigEndian = true → parseLoop fuel c args = .ok c2 → c2.BigEndian = true := by
  intro fuel
  induction fuel with
  | zero =>
    intro c args c2 hbe h
    simp [parseLoop] at h
  | succ n ih =>
    intro c args c2 hbe h
    cases args with
    | nil =>
      simp only [parseLoop] at h
      injection h with h2
      exact h2 ▸ hbe
    | cons a rest =>
      simp only [parseLoop] at h
      cases hs : parseStep c a rest with
      | cont c3 rest3 =>
        rw [hs] at h
        exact ih c3 rest3 c2 (parseStep_bigEndian hs hbe) h
      | fail e => rw [hs] at h; cases h
      | exit => rw [hs] at h; cases h

/-- C9: every configuration the argument parser accepts has
`BigEndian = true` — the default is `true` and `-B`/`--big-endian` only
re-asserts `true`, so no command line can reach the little-endian branches
of the wide-value codec. -/
theorem parsedConfigAlwaysBigEndian (fuel : Nat) (args : List String) (c : Config)
    (h : parseArgs fuel args = .ok c) : c.BigEndian = true := by
  unfold parseArgs at h
  cases hl : parseLoop fuel defaultConfig args with
  | ok c0 =>
    simp only [hl] at h
    have hc0 : c0.BigEndian = true := parseLoop_bigEndian fuel defaultConfig args c0 rfl hl
    by_cases hhd : c0.Host = "" ∧ c0.Device = ""
    · rw [if_pos hhd] at h
      simp at h
    · rw [if_neg hhd] at h
      cases hv : validateConfig c0 with
      | error e => simp only [hv] at h; cases h
      | ok u => simp only [hv] at h; injection h with h2; exact h2 ▸ hc0
  | err e => simp only [hl] at h; cases h
  | exited => simp only [hl] at h; cases h
  | diverge => simp only [hl] at h; cases h

/-- Witness for C9: a concrete accepted command line (a plain tcp target)
yields a config with `BigEndian = true`. -/
theorem parsedConfigAlwaysBigEndian_witness :
    ({ defaultConfig with Host := "192.168.1.100" } : Config).BigEndian = true :=
  parsedConfigAlwaysBigEndian 5 ["192.168.1.100"]
    { defaultConfig with Host := "192.168.1.100" } (by decide)

/-- With `PollOnce` set, the loop performs exactly one read and returns its
outcome. -/
theorem pollReads_once (res : Nat → Except String Unit) (r : Int) (fuel k : Nat) :
    pollReads res true r (fuel + 1) k = some ([.read k], res k) := by
  cases hres : res k with
  | error e => simp [pollReads, hres]
  | ok u => simp [pollReads, hres]

/-- Continuous polling stops at the first failing read, after reads
`k, ..., k+m` with a sleep between consecutive reads. -/
theorem pollReads_failAt (res : Nat → Except String Unit) (r : Int) :
    ∀ (m fuel k : Nat) (e : String), m < fuel →
      (∀ j, j < m → res (k + j) = .ok ()) → res (k + m) = .error e →
      pollReads res false r fuel k = some (pollTrace k m r, .error e) := by
  intro m
  induction m with
  | zero =>
    intro fuel k e hf hok herr
    cases fuel with
    | zero => omega
    | succ n =>
      simp only [Nat.add_zero] at herr
      simp [pollReads, herr, pollTrace]
  | succ m ih =>
    intro fuel k e hf hok herr
    cases fuel with
    | zero => omega
    | succ n =>
      have h0 : res k = .ok () := by simpa using hok 0 (by omega)
      have hrec : pollReads res false r n (k + 1) = some (pollTrace (k + 1) m r, .error e) := by
        apply ih n (k + 1) e (by omega)
        · intro j hj
          have hs := hok (j + 1) (by omega)
          rw [show k + 1 + j = k + (j + 1) by omega]
          exact hs
        · rw [show k + 1 + m = k + (m + 1) by omega]
          exact herr
      simp [pollReads, h0, hrec, pollTrace]

/-- While every read succeeds, continuous polling never returns. -/
theorem pollReads_allOk (res : Nat → Except String Unit) (r : Int) :
    ∀ (fuel k : Nat), (∀ j, j < fuel → res (k + j) = .ok ()) →
      pollReads res false r fuel k = none := by
  intro fuel
  induction fuel with
  | zero => intro k _; rfl
  | succ n ih =>
    intro k h
    have h0 : res k = .ok () := by simpa using h 0 (by omega)
    have hrec : pollReads res false r n (k + 1) = none := by
      apply ih
      intro j hj
      have hs := h (j + 1) (by omega)
      rw [show k + 1 + j = k + (j + 1) by omega]
      exact hs
    simp [pollReads, h0, hrec]

/-- C7: a run with write values performs exactly one write dispatch,
independent of `PollOnce`, `PollRate` and fuel; a read run with `PollOnce`
performs exactly one read and returns its outcome; a read run without
`PollOnce` sleeps `PollRate` between reads and terminates exactly when a
read fails, propagating that failure — while reads keep succeeding it never
returns. -/
theorem pollSemantics (conv : String → Nat) (c : Config) (res : Nat → Except String Unit) :
    (∀ (po : Bool) (pr : Int) (fuel : Nat), c.WriteValues ≠ [] →
      execute conv { c with PollOnce := po, PollRate := pr } res fuel =
        some (.wrote (performWriteOperation conv c (u16 (effectiveStartRef c))))) ∧
    (∀ fuel : Nat, c.WriteValues = [] → c.PollOnce = true →
      execute conv c res (fuel + 1) = some (.polled [.read 0] (res 0))) ∧
    (∀ (fuel m : Nat) (e : String), c.WriteValues = [] → c.PollOnce = false →
      (∀ j, j < m → res j = .ok ()) → res m = .error e → m < fuel →
      execute conv c res fuel = some (.polled (pollTrace 0 m c.PollRate) (.error e))) ∧
    (∀ fuel : Nat, c.WriteValues = [] → c.PollOnce = false →
      (∀ j, j < fuel → res j = .ok ()) → execute conv c res fuel = none) := by
  refine ⟨?_, ?_, ?_, ?_⟩
  · intro po pr fuel hne
    have hlen : c.WriteValues.length ≠ 0 := by
      cases hw : c.WriteValues
      · exact absurd hw hne
      · simp [hw]
    unfold execute
    rw [if_pos hlen]
    rfl
  · intro fuel h0 h1
    unfold execute
    rw [if_neg (by simp [h0]), h1, pollReads_once]
  · intro fuel m e h0 h1 hok herr hf
    unfold execute
    rw [if_neg (by simp [h0]), h1,
      pollReads_failAt res c.PollRate m fuel 0 e hf (by simpa using hok) (by simpa using herr)]
  · intro fuel h0 h1 hok
    unfold execute
    rw [if_neg (by simp [h0]), h1, pollReads_allOk res c.PollRate fuel 0 (by simpa using hok)]

/-- A read configuration polling once. -/
def pollOnceConfig : Config :=
  { defaultConfig with Host := "192.168.1.100", PollOnce := true }

/-- Witness for C7: a PollOnce read run against an always-succeeding
collaborator performs exactly one read and returns success. -/
theorem pollSemantics_witness :
    execute (fun _ => 0) pollOnceConfig (fun _ => .ok ()) 1 =
      some (.polled [.read 0] (.ok ())) :=
  (pollSemantics (fun _ => 0) pollOnceConfig (fun _ => .ok ())).2.1 0 rfl rfl

/-- C8: validation accepts a configuration exactly when every field is in
its legal range (Count 1..125, SlaveID 0..255, Baudrate 1200..921600,
Databits 7/8, Stopbits 1/2, Parity none/even/odd, PollRate ≥ 10 ms,
Timeout in [10 ms, 10 s], durations in nanoseconds), and it reports the
first violated constraint in the fixed check order with that constraint's
message. -/
theorem validateConfig_spec (c : Config) :
    (validateConfig c = .ok () ↔
      ((1 ≤ c.Count ∧ c.Count ≤ 125) ∧ (0 ≤ c.SlaveID ∧ c.SlaveID ≤ 255) ∧
        (1200 ≤ c.Baudrate ∧ c.Baudrate ≤ 921600) ∧ (c.Databits = 7 ∨ c.Databits = 8) ∧
        (c.Stopbits = 1 ∨ c.Stopbits = 2) ∧
        (c.Parity = "none" ∨ c.Parity = "even" ∨ c.Parity = "odd") ∧
        10 * 1000000 ≤ c.PollRate ∧
        (10 * 1000000 ≤ c.Timeout ∧ c.Timeout ≤ 10 * 1000000000))) ∧
    ((c.Count < 1 ∨ c.Count > 125) →
      validateConfig c = .error ("count must be between 1 and 125")) ∧
    (¬(c.Count < 1 ∨ c.Count > 125) → (c.SlaveID < 0 ∨ c.SlaveID > 255) →
      validateConfig c = .error ("slave address must be between 0 and 255")) ∧
    (¬(c.Count < 1 ∨ c.Count > 125) → ¬(c.SlaveID < 0 ∨ c.SlaveID > 255) →
      (c.Baudrate < 1200 ∨ c.Baudrate > 921600) →
      validateConfig c = .error ("baudrate must be between 1200 and 921600")) ∧
    (¬(c.Count < 1 ∨ c.Count > 125) → ¬(c.SlaveID < 0 ∨ c.SlaveID > 255) →
      ¬(c.Baudrate < 1200 ∨ c.Baudrate > 921600) → (c.Databits ≠ 7 ∧ c.Databits ≠ 8) →
      validateConfig c = .error ("databits must be 7 or 8")) ∧
    (¬(c.Count < 1 ∨ c.Count > 125) → ¬(c.SlaveID < 0 ∨ c.SlaveID > 255) →
      ¬(c.Baudrate < 1200 ∨ c.Baudrate > 921600) → ¬(c.Databits ≠ 7 ∧ c.Databits ≠ 8) →
      (c.Stopbits ≠ 1 ∧ c.Stopbits ≠ 2) →
      validateConfig c = .error ("stopbits must be 1 or 2")) ∧
    (¬(c.Count < 1 ∨ c.Count > 125) → ¬(c.SlaveID < 0 ∨ c.SlaveID > 255) →
      ¬(c.Baudrate < 1200 ∨ c.Baudrate > 921600) → ¬(c.Databits ≠ 7 ∧ c.Databits ≠ 8) →
      ¬(c.Stopbits ≠ 1 ∧ c.Stopbits ≠ 2) →
      ¬(c.Parity = "none" ∨ c.Parity = "even" ∨ c.Parity = "odd") →
      validateConfig c = .error ("parity must be none, even, or odd")) ∧
    (¬(c.Count < 1 ∨ c.Count > 125) → ¬(c.SlaveID < 0 ∨ c.SlaveID > 255) →
      ¬(c.Baudrate < 1200 ∨ c.Baudrate > 921600) → ¬(c.Databits ≠ 7 ∧ c.Databits ≠ 8) →
      ¬(c.Stopbits ≠ 1 ∧ c.Stopbits ≠ 2) →
      (c.Parity = "none" ∨ c.Parity = "even" ∨ c.Parity = "odd") →
      c.PollRate < 10 * 1000000 →
      validateConfig c = .error ("poll rate must be at least 10ms")) ∧
    (¬(c.Count < 1 ∨ c.Count > 125) → ¬(c.SlaveID < 0 ∨ c.SlaveID > 255) →
      ¬(c.Baudrate < 1200 ∨ c.Baudrate > 921600) → ¬(c.Databits ≠ 7 ∧ c.Databits ≠ 8) →
      ¬(c.Stopbits ≠ 1 ∧ c.Stopbits ≠ 2) →
      (c.Parity = "none" ∨ c.Parity = "even" ∨ c.Parity = "odd") →
      ¬(c.PollRate < 10 * 1000000) →
      (c.Timeout < 10 * 1000000 ∨ c.Timeout > 10 * 1000000000) →
      validateConfig c = .error ("timeout must be between 0.01 and 10.00 seconds")) := by
  refine ⟨⟨?_, ?_⟩, ?_, ?_, ?_, ?_, ?_, ?_, ?_, ?_⟩
  · intro h
    unfold validateConfig at h
    split_ifs at h with h1 h2 h3 h4 h5 h6 h7 h8 <;> try simp at h
    refine ⟨by omega, by omega, by omega, by omega, by omega, ?_, by omega, by omega⟩
    tauto
  · intro hr
    obtain ⟨hc, hs, hb, hd, hst, hp, hpr, ht⟩ := hr
    unfold validateConfig
    rw [if_neg (by omega), if_neg (by omega), if_neg (by omega), if_neg (by omega),
      if_neg (by omega), if_neg (by tauto), if_neg (by omega), if_neg (by omega)]
  · intro h1
    unfold validateConfig
    rw [if_pos h1]
  · intro h1 h2
    unfold validateConfig
    rw [if_neg h1, if_pos h2]
  · intro h1 h2 h3
    unfold validateConfig
    rw [if_neg h1, if_neg h2, if_pos h3]
  · intro h1 h2 h3 h4
    unfold validateConfig
    rw [if_neg h1, if_neg h2, if_neg h3, if_pos h4]
  · intro h1 h2 h3 h4 h5
    unfold validateConfig
    rw [if_neg h1, if_neg h2, if_neg h3, if_neg h4, if_pos h5]
  · intro h1 h2 h3 h4 h5 h6
    unfold validateConfig
    rw [if_neg h1, if_neg h2, if_neg h3, if_neg h4, if_neg h5, if_pos h6]
  · intro h1 h2 h3 h4 h5 h6 h7
    unfold validateConfig
    rw [if_neg h1, if_neg h2, if_neg h3, if_neg h4, if_neg h5, if_neg (by tauto), if_pos h7]
  · intro h1 h2 h3 h4 h5 h6 h7 h8
    unfold validateConfig
    rw [if_neg h1, if_neg h2, if_neg h3, if_neg h4, if_neg h5, if_neg (by tauto),
      if_neg h7, if_pos h8]

/-- Witness for C8: the claim's boundary instances.  Count 0 and 126 fail
with the count message, 1 and 125 pass; Baudrate 1199 and 921601 fail with
the baudrate message, 1200 and 921600 pass. -/
theorem validateConfig_spec_witness :
    validateConfig { defaultConfig with Count := 0 } =
      .error ("count must be between 1 and 125") ∧
    validateConfig { defaultConfig with Count := 126 } =
      .error ("count must be between 1 and 125") ∧
    validateConfig { defaultConfig with Count := 1 } = .ok () ∧
    validateConfig { defaultConfig with Count := 125 } = .ok () ∧
    validateConfig { defaultConfig with Baudrate := 1199 } =
      .error ("baudrate must be between 1200 and 921600") ∧
    validateConfig { defaultConfig with Baudrate := 1200 } = .ok () ∧
    validateConfig { defaultConfig with Baudrate := 921600 } = .ok () ∧
    validateConfig { defaultConfig with Baudrate := 921601 } =
      .error ("baudrate must be between 1200 and 921600") :=
  ⟨(validateConfig_spec _).2.1 (by decide),
   (validateConfig_spec _).2.1 (by decide),
   (validateConfig_spec _).1.mpr (by decide),
   (validateConfig_spec _).1.mpr (by decide),
   (validateConfig_spec _).2.2.2.1 (by decide) (by decide) (by decide),
   (validateConfig_spec _).1.mpr (by decide),
   (validateConfig_spec _).1.mpr (by decide),
   (validateConfig_spec _).2.2.2.1 (by decide) (by decide) (by decide)⟩

/-- C10: `StartRef` is never range-checked — validation is entirely
independent of it — and on the non-`ZeroBased` path the start address
handed to the collaborator by every read dispatch and every write dispatch
is `StartRef` reduced modulo 2^16 by unsigned 16-bit narrowing (negative
values wrap: the reduction is the non-negative remainder). -/
theorem startRefUnchecked (conv : String → Nat) (c : Config) (r : Int) :
    (validateConfig { c with StartRef := r } = validateConfig c) ∧
    (u16 (effectiveStartRef { c with StartRef := r, ZeroBased := false }) =
      (r % 65536).toNat) ∧
    (∀ call : ClientCall,
      performOperationCall { c with StartRef := r, ZeroBased := false }
          (u16 (effectiveStartRef { c with StartRef := r, ZeroBased := false })) = .ok call →
      addrOf call = (r % 65536).toNat) ∧
    (∀ p : List ClientCall × Nat,
      performWriteOperation conv { c with StartRef := r, ZeroBased := false }
          (u16 (effectiveStartRef { c with StartRef := r, ZeroBased := false })) = .ok p →
      ∀ call ∈ p.1, addrOf call = (r % 65536).toNat) := by
  refine ⟨rfl, rfl, ?_, ?_⟩
  · intro call h
    unfold performOperationCall at h
    split_ifs at h <;> cases h <;> rfl
  · intro p h call hcall
    unfold performWriteOperation writeCoils writeHoldingRegisters at h
    split_ifs at h <;> cases h <;>
      simp only [List.mem_singleton, List.mem_nil_iff] at hcall <;>
      (subst hcall; rfl)

/-- Witness for C10: with StartRef = -1 (out of any 16-bit range) validation
is unchanged from the defaults, and the effective wire address wraps to
65535. -/
theorem startRefUnchecked_witness :
    validateConfig { defaultConfig with StartRef := -1 } = validateConfig defaultConfig ∧
    u16 (effectiveStartRef { defaultConfig with StartRef := -1, ZeroBased := false }) = 65535 :=
  ⟨(startRefUnchecked (fun _ => 0) defaultConfig (-1)).1,
   (startRefUnchecked (fun _ => 0) defaultConfig (-1)).2.1⟩
